import Mathlib

/-!
A verification development for the DeepInfra chat-completion client
(src/BRAIN/AI/TEXT/STREAM/deepInfra_TEXT.py).  Text is modelled as
List Char.  The Python regular-expression and string primitives used by
the source are embedded over their ASCII behaviour (all inputs handled
by this client are ASCII): the character classes of the pattern
(?<!\b\w\.)(?<![A-Z][a-z]\.)(?<=\.|\?)\s and the methods str.strip,
str.__contains__, re.sub and re.split are given explicit recursive
definitions below.
-/

namespace DeepInfra

/-- ASCII whitespace, the characters matched by the regex class \s
(and stripped by str.strip) on ASCII input. -/
def isWs (c : Char) : Bool :=
  c == ' ' || c == '\t' || c == '\n' || c == '\r' || c == '\x0b' || c == '\x0c'

/-- ASCII word characters, the regex class \w on ASCII input. -/
def isWordChar (c : Char) : Bool :=
  c.isAlpha || c.isDigit || c == '_'

/-- Embedding of Python str.strip(): drop leading and trailing whitespace. -/
def pyStrip (s : List Char) : List Char :=
  ((s.dropWhile isWs).reverse.dropWhile isWs).reverse

/-!
The sentence-boundary pattern of _stream_response (line 95):
  re.split(r'(?<!\b\w\.)(?<![A-Z][a-z]\.)(?<=\.|\?)\s', partial_sentence)
A match is a single whitespace character; the three lookbehinds inspect
the characters immediately before it in the original string.  We carry
that left context as a reversed list of the characters already scanned.
-/

/-- Negative lookbehind (?<!\b\w\.): the two characters before the
whitespace are a word character followed by a period, with a word
boundary before the word character (start of string or a non-word
character). `ctx` is the reversed left context. -/
def guardSingleLetter : List Char → Bool
  | p1 :: p2 :: rest =>
    p1 == '.' && isWordChar p2 &&
      (match rest with
       | [] => true
       | p3 :: _ => !isWordChar p3)
  | _ => false

/-- Negative lookbehind (?<![A-Z][a-z]\.): the three characters before
the whitespace are an uppercase letter, a lowercase letter, a period. -/
def guardCapAbbrev : List Char → Bool
  | p1 :: p2 :: p3 :: _ => p1 == '.' && p2.isLower && p3.isUpper
  | _ => false

/-- The full zero-width condition of the split pattern at a whitespace
position whose reversed left context is `ctx`: the previous character is
a period or question mark and neither abbreviation guard fires. -/
def splitHere (ctx : List Char) : Bool :=
  (match ctx with
   | p1 :: _ => p1 == '.' || p1 == '?'
   | [] => false)
  && !guardSingleLetter ctx && !guardCapAbbrev ctx

/-- Scanner for re.split on the pattern above: walk the string left to
right carrying the reversed left context `ctx` (lookbehinds read the
original string) and the reversed current segment `cur`; a matching
whitespace character is consumed as the delimiter.  Returns the list of
segments (always nonempty, like re.split) and the list of consumed
delimiter characters in order. -/
def reSplitAux : List Char → List Char → List Char → List (List Char) × List Char
  | [], _, cur => ([cur.reverse], [])
  | c :: rest, ctx, cur =>
    if isWs c && splitHere ctx then
      let res := reSplitAux rest (c :: ctx) []
      (cur.reverse :: res.1, c :: res.2)
    else
      reSplitAux rest (c :: ctx) (c :: cur)

/-- Embedding of re.split with the sentence-boundary pattern, also
returning the consumed single-whitespace delimiters. -/
def reSplitD (s : List Char) : List (List Char) × List Char :=
  reSplitAux s [] []

/-- The segment list exactly as the source uses it (re.split result). -/
def reSplit (s : List Char) : List (List Char) :=
  (reSplitD s).1

/-!
The streaming sentence segmenter of _stream_response (lines 93-98):
append the fragment to the pending buffer, re.split the buffer, yield
every segment but the last stripped, keep the last segment as the new
pending buffer.  Lines 101-102 flush a nonempty final buffer stripped.
-/

/-- One ContentDelta step of the segmenter: emitted sentences (stripped)
and the new pending buffer. -/
def feed (pending frag : List Char) : List (List Char) × List Char :=
  let parts := reSplit (pending ++ frag)
  (parts.dropLast.map pyStrip, parts.getLastD [])

/-- Run the segmenter over a whole fragment sequence from a given
pending buffer: all emitted sentences in order and the final buffer. -/
def runFrags : List Char → List (List Char) → List (List Char) × List Char
  | pending, [] => ([], pending)
  | pending, f :: fs =>
    let step := feed pending f
    let rest := runFrags step.2 fs
    (step.1 ++ rest.1, rest.2)

/-- The end-of-stream flush (lines 101-102): a nonempty pending buffer
is emitted stripped; an empty one emits nothing. -/
def flushBuf (pending : List Char) : List (List Char) :=
  if pending.isEmpty then [] else [pyStrip pending]

/-- Everything a fresh segmenter emits for a fragment sequence,
including the final flush. -/
def segmentAll (frags : List (List Char)) : List (List Char) :=
  (runFrags [] frags).1 ++ flushBuf (runFrags [] frags).2

/-!
The response adapter of _stream_response (lines 86-92): each raw line is
transformed by re.sub("data:", "", value), skipped when empty or when it
contains "[DONE]", and otherwise parsed with json.loads.
-/

/-- Embedding of re.sub("data:", "", value) (line 87): the pattern is a
literal, so every non-overlapping occurrence of "data:" is removed in
one left-to-right pass. -/
def reSubDataAll : List Char → List Char
  | 'd' :: 'a' :: 't' :: 'a' :: ':' :: rest => reSubDataAll rest
  | c :: rest => c :: reSubDataAll rest
  | [] => []

/-- Embedding of the Python substring test `pat in s`. -/
def containsMarker (pat : List Char) : List Char → Bool
  | [] => pat.isEmpty
  | c :: rest => List.isPrefixOf pat (c :: rest) || containsMarker pat rest

/-- The end-of-stream sentinel test `"[DONE]" in modified_value`. -/
def containsDone (s : List Char) : Bool :=
  containsMarker ("[DONE]".toList) s

/-!
Embedding of json.loads for the JSON subset this client exchanges
(objects, arrays, strings with simple escapes, null, booleans, and
numbers, whose lexemes are kept uninterpreted because no code path in
this file reads a numeric value).  A failed parse models
json.JSONDecodeError.
-/

/-- Parsed JSON values. -/
inductive Json where
  | null : Json
  | bool (b : Bool) : Json
  | num (lexeme : List Char) : Json
  | str (s : List Char) : Json
  | arr (items : List Json) : Json
  | obj (fields : List (List Char × Json)) : Json
deriving Repr

/-- JSON insignificant whitespace. -/
def isJsonWs (c : Char) : Bool :=
  c == ' ' || c == '\t' || c == '\n' || c == '\r'

/-- Drop leading JSON whitespace. -/
def skipWs (s : List Char) : List Char :=
  s.dropWhile isJsonWs

/-- Translate a JSON string escape character. -/
def unescape (c : Char) : Option Char :=
  if c == '"' ∨ c == '\\' ∨ c == '/' then some c
  else if c == 'n' then some '\n'
  else if c == 't' then some '\t'
  else if c == 'r' then some '\r'
  else if c == 'b' then some '\x08'
  else if c == 'f' then some '\x0c'
  else none

/-- Parse the remainder of a JSON string literal (the opening quote
already consumed); returns its characters and the rest of the input. -/
def parseStrAux : List Char → Option (List Char × List Char)
  | [] => none
  | '"' :: rest => some ([], rest)
  | '\\' :: e :: rest =>
    match unescape e, parseStrAux rest with
    | some c, some sr => some (c :: sr.1, sr.2)
    | _, _ => none
  | c :: rest =>
    match parseStrAux rest with
    | some sr => some (c :: sr.1, sr.2)
    | none => none

/-- Parse a JSON number lexeme (sign, digits, optional fraction and
exponent), kept as its character sequence. -/
def parseNum (s : List Char) : Option (Json × List Char) :=
  let sign := if s.headD ' ' == '-' then s.take 1 else []
  let s1 := if s.headD ' ' == '-' then s.drop 1 else s
  let intPart := s1.takeWhile Char.isDigit
  let s2 := s1.dropWhile Char.isDigit
  if intPart.isEmpty then none
  else
    let fracPart :=
      if s2.headD ' ' == '.' && ((s2.drop 1).headD ' ').isDigit then
        '.' :: (s2.drop 1).takeWhile Char.isDigit
      else []
    let s3 :=
      if s2.headD ' ' == '.' && ((s2.drop 1).headD ' ').isDigit then
        (s2.drop 1).dropWhile Char.isDigit
      else s2
    some (.num (sign ++ intPart ++ fracPart), s3)

/-- What the recursive-descent embedding of json.loads is currently
parsing: a value, the members of an object, or the items of an array. -/
inductive PTask where
  | val : PTask
  | members : PTask
  | items : PTask

/-- The intermediate result for each parsing task. -/
inductive POut where
  | v (j : Json) : POut
  | ms (fields : List (List Char × Json)) : POut
  | is (items : List Json) : POut

/-- The recursive descent of json.loads over the grammar, written as a
single function structurally recursive on a fuel bound so that it
reduces inside the kernel. -/
def parseF : Nat → PTask → List Char → Option (POut × List Char)
  | 0, _, _ => none
  | Nat.succ fuel, .val, s =>
    match skipWs s with
    | '{' :: rest =>
      match skipWs rest with
      | '}' :: r2 => some (.v (.obj []), r2)
      | r2 =>
        match parseF fuel .members r2 with
        | some (.ms fs, r3) => some (.v (.obj fs), r3)
        | _ => none
    | '[' :: rest =>
      match skipWs rest with
      | ']' :: r2 => some (.v (.arr []), r2)
      | r2 =>
        match parseF fuel .items r2 with
        | some (.is xs, r3) => some (.v (.arr xs), r3)
        | _ => none
    | '"' :: rest =>
      match parseStrAux rest with
      | some sr => some (.v (.str sr.1), sr.2)
      | none => none
    | 'n' :: 'u' :: 'l' :: 'l' :: rest => some (.v .null, rest)
    | 't' :: 'r' :: 'u' :: 'e' :: rest => some (.v (.bool true), rest)
    | 'f' :: 'a' :: 'l' :: 's' :: 'e' :: rest => some (.v (.bool false), rest)
    | c :: rest =>
      if c.isDigit || c == '-' then
        match parseNum (c :: rest) with
        | some jr => some (.v jr.1, jr.2)
        | none => none
      else none
    | [] => none
  | Nat.succ fuel, .members, s =>
    match skipWs s with
    | '"' :: rest =>
      match parseStrAux rest with
      | some kr =>
        match skipWs kr.2 with
        | ':' :: r3 =>
          match parseF fuel .val r3 with
          | some (.v v, r4) =>
            (match skipWs r4 with
             | ',' :: r5 =>
               match parseF fuel .members r5 with
               | some (.ms ms, r6) => some (.ms ((kr.1, v) :: ms), r6)
               | _ => none
             | '}' :: r5 => some (.ms [(kr.1, v)], r5)
             | _ => none)
          | _ => none
        | _ => none
      | none => none
    | _ => none
  | Nat.succ fuel, .items, s =>
    match parseF fuel .val s with
    | some (.v v, r) =>
      (match skipWs r with
       | ',' :: r2 =>
         match parseF fuel .items r2 with
         | some (.is xs, r3) => some (.is (v :: xs), r3)
         | _ => none
       | ']' :: r2 => some (.is [v], r2)
       | _ => none)
    | _ => none

/-- Parse one JSON value with a given fuel bound. -/
def parseVal (fuel : Nat) (s : List Char) : Option (Json × List Char) :=
  match parseF fuel .val s with
  | some (.v j, r) => some (j, r)
  | _ => none

/-- Embedding of json.loads: parse one value and require only
whitespace to remain; none models json.JSONDecodeError. -/
def parseJson (s : List Char) : Option Json :=
  match parseVal (2 * s.length + 2) s with
  | some jr => if (skipWs jr.2).isEmpty then some jr.1 else none
  | none => none

/-- Dictionary lookup, first binding wins (JSON objects from json.loads
keep the last duplicate, but no input here has duplicates). -/
def jLookup (key : List Char) : List (List Char × Json) → Option Json
  | [] => none
  | kv :: rest => if kv.1 = key then some kv.2 else jLookup key rest

/-- The extraction json_modified_value["choices"][0]["delta"]["content"]
of lines 91-92, collapsed to an Option: every failure mode there
(missing key, wrong container shape, empty array, null content, or a
non-string content whose later concatenation raises TypeError) is
caught by the bare `except: continue` of lines 90/99-100, so all of
them are modelled as none. -/
def deltaContent (j : Json) : Option (List Char) :=
  match j with
  | .obj fields =>
    match jLookup ("choices".toList) fields with
    | some (.arr (c0 :: _)) =>
      match c0 with
      | .obj cf =>
        match jLookup ("delta".toList) cf with
        | some (.obj df) =>
          match jLookup ("content".toList) df with
          | some (.str s) => some s
          | _ => none
        | _ => none
      | _ => none
    | _ => none
  | _ => none

/-!
The streaming loop of _stream_response (lines 81-109) over a given
sequence of raw response lines.  A line whose re.sub image is empty or
contains "[DONE]" is skipped by the guard on line 88.  json.loads is
called on line 89, OUTSIDE the inner try of lines 90-100: a decode
failure there propagates out of the for loop to the outer handler
`except json.JSONDecodeError: pass` (line 104), which ends the
generator at once, skipping both the remaining lines and the flush of
lines 101-102.  Frames whose delta extraction fails are skipped by the
inner handler and the loop continues.
-/

/-- One run of the streaming loop from a given pending buffer. -/
def streamGo : List (List Char) → List Char → List (List Char)
  | [], pending => if pending.isEmpty then [] else [pyStrip pending]
  | line :: rest, pending =>
    let m := reSubDataAll line
    if !m.isEmpty && !containsDone m then
      match parseJson m with
      | none => []
      | some j =>
        match deltaContent j with
        | some txt =>
          let step := feed pending txt
          step.1 ++ streamGo rest step.2
        | none => streamGo rest pending
    else
      streamGo rest pending

/-- All sentences _stream_response yields for a line sequence. -/
def streamLines (lines : List (List Char)) : List (List Char) :=
  streamGo lines []

/-!
Adapter behaviour as the specification words it (sections 4.1-4.2), for
refinement comparison with streamGo: only a leading "data:" framing
prefix is stripped; a line that is then empty or contains the sentinel
yields StreamEnd, at which the pending buffer is flushed and the stream
ends; a Malformed line is skipped without aborting; an Ignorable frame
is skipped; the buffer is discarded if the lines run out without a
StreamEnd.
-/

/-- Removal of one leading "data:" framing prefix only, per the words of
the specification (for comparison with the re.sub embedding). -/
def stripLeadingData (s : List Char) : List Char :=
  if List.isPrefixOf ("data:".toList) s then s.drop 5 else s

/-- The specification-worded streaming loop, for refinement comparison. -/
def streamSpecGo : List (List Char) → List Char → List (List Char)
  | [], _ => []
  | line :: rest, pending =>
    let m := stripLeadingData line
    if m.isEmpty || containsDone m then
      flushBuf pending
    else
      match parseJson m with
      | none => streamSpecGo rest pending
      | some j =>
        match deltaContent j with
        | some txt =>
          let step := feed pending txt
          step.1 ++ streamSpecGo rest step.2
        | none => streamSpecGo rest pending

/-- All sentences the specification-worded pipeline emits. -/
def streamSpec (lines : List (List Char)) : List (List Char) :=
  streamSpecGo lines []

/-!
The non-streaming fetcher _get_full_response (lines 111-130).  The
transport is abstracted as either a connection failure before any
response object exists, or a response with a status flag and a raw
body text; response.json() is json.loads of the body text.

Control flow of the source:
- requests.post raising (connFail): the handler on line 117 catches the
  RequestException, but line 119 then reads the local `response`, which
  was never assigned - an UnboundLocalError propagates as an unhandled
  fault.
- non-2xx status: raise_for_status() raises HTTPError, a
  RequestException; `response` exists, so line 120 returns
  "Response content: " + response.text.
- body fails to parse: response.json() raises
  requests.exceptions.JSONDecodeError, which subclasses
  RequestException (requests >= 2.27, as used here), so the SAME first
  handler returns "Response content: " + response.text; the
  `except json.JSONDecodeError: pass` clause on line 123 is dead code.
- ['choices'] or ['message'] or ['content'] missing: KeyError, caught on
  line 125, returns "Error parsing response: " + response.text.
- an empty choices array ([0] raising IndexError) or a non-subscriptable
  value (TypeError): no handler matches - an unhandled fault.
-/

/-- Python exceptions distinguished by the fetcher's handlers. -/
inductive PyExc where
  | keyError : PyExc
  | indexError : PyExc
  | typeError : PyExc
deriving Repr, DecidableEq

/-- Python subscripting j[key] on a parsed JSON value. -/
def jGetE (j : Json) (key : List Char) : Except PyExc Json :=
  match j with
  | .obj fields =>
    match jLookup key fields with
    | some v => .ok v
    | none => .error .keyError
  | _ => .error .typeError

/-- Python subscripting j[0] on a parsed JSON value. -/
def jIndex0 (j : Json) : Except PyExc Json :=
  match j with
  | .arr (x :: _) => .ok x
  | .arr [] => .error .indexError
  | .str (c :: _) => .ok (.str [c])
  | .str [] => .error .indexError
  | _ => .error .typeError

/-- The extraction response.json()['choices'][0]['message']['content']
of line 116, with the Python exception that each failing step raises. -/
def extractMsgContent (j : Json) : Except PyExc Json := do
  let c ← jGetE j ("choices".toList)
  let c0 ← jIndex0 c
  let m ← jGetE c0 ("message".toList)
  jGetE m ("content".toList)

/-- Outcome of the blocking requests.post call. -/
inductive TransportOutcome where
  | connFail : TransportOutcome
  | resp (okStatus : Bool) (rawText : List Char) : TransportOutcome

/-- What a call to _get_full_response does: return the extracted value,
return an error string, or propagate an unhandled exception. -/
inductive FetchResult where
  | ret (v : Json) : FetchResult
  | errStr (s : List Char) : FetchResult
  | fault : FetchResult
deriving Repr

/-- Embedding of _get_full_response (lines 111-130). -/
def getFullResponse : TransportOutcome → FetchResult
  | .connFail => .fault
  | .resp okStatus raw =>
    if !okStatus then .errStr ("Response content: ".toList ++ raw)
    else
      match parseJson raw with
      | none => .errStr ("Response content: ".toList ++ raw)
      | some j =>
        match extractMsgContent j with
        | .ok v => .ret v
        | .error .keyError => .errStr ("Error parsing response: ".toList ++ raw)
        | .error _ => .fault

/-!
The caller-facing generate function (lines 6-79).  Because its body
contains `yield from` (line 77), Python makes generate a generator
function: every call returns a generator object.  With stream=True the
generator yields the segmented sentences; with stream=False it yields
nothing and the string produced by _get_full_response is only stashed
as the StopIteration value of the bare `return` (line 79), invisible to
ordinary iteration.  The embedding records both what iterating the
returned generator yields and that stashed return value, together with
the mutated history and the request payload built on lines 64-74.
-/

/-- One chat message {role, content}. -/
structure Message where
  role : List Char
  content : List Char
deriving Repr, DecidableEq

/-- The outbound JSON payload of lines 67-74. -/
structure Payload where
  model : List Char
  messages : List Message
  temperature : Float
  maxTokens : Nat
  stop : List (List Char)
  stream : Bool

/-- The network, as the two views the two paths read from it: the line
iterator of the streaming response and the buffered outcome of the
non-streaming call. -/
structure Network where
  lines : List (List Char)
  outcome : TransportOutcome

/-- Everything observable about one generate(...) call. -/
structure GenOutput where
  newHistory : List Message
  payload : Payload
  yielded : List (List Char)
  stashedReturn : Option FetchResult

/-- Embedding of generate (lines 64-79): prepend the system message to
the caller's history by insert(0, ...), build the payload with a
constant "stream": True field, then either stream-and-segment or stash
the full response as the generator return value. -/
def generate (history : List Message) (model : List Char)
    (systemPrompt : List Char) (maxTokens : Nat) (temperature : Float)
    (stream : Bool) (net : Network) : GenOutput :=
  let prepared := history.insertIdx 0 ⟨"system".toList, systemPrompt⟩
  let payload : Payload :=
    { model := model
      messages := prepared
      temperature := temperature
      maxTokens := maxTokens
      stop := []
      stream := true }
  if stream then
    { newHistory := prepared
      payload := payload
      yielded := streamLines net.lines
      stashedReturn := none }
  else
    { newHistory := prepared
      payload := payload
      yielded := []
      stashedReturn := some (getFullResponse net.outcome) }

/-!
Proof instrumentation for the reconstruction invariant: a variant of the
split scanner that returns the initial segments, the consumed delimiter
characters, and the final segment separately, and a run of the whole
fragment sequence that keeps the raw (unstripped) segments.
-/

/-- The split scanner with its result separated into initial segments,
delimiters, and the final segment. -/
def reSplitP : List Char → List Char → List Char → (List (List Char) × List Char) × List Char
  | [], _, cur => (([], []), cur.reverse)
  | c :: rest, ctx, cur =>
    if isWs c && splitHere ctx then
      let res := reSplitP rest (c :: ctx) []
      ((cur.reverse :: res.1.1, c :: res.1.2), res.2)
    else
      reSplitP rest (c :: ctx) (c :: cur)

/-- Interleave segments with their single-character delimiters and
append a tail: seg1, d1, seg2, d2, ..., tail. -/
def glue (segs : List (List Char)) (ds : List Char) (tail : List Char) : List Char :=
  (List.zipWith (fun s d => s ++ [d]) segs ds).flatten ++ tail

/-- Run the segmenter over a fragment sequence keeping the raw
(pre-strip) emitted segments, the consumed delimiters, and the final
pending buffer. -/
def runRaw : List Char → List (List Char) → (List (List Char) × List Char) × List Char
  | pending, [] => (([], []), pending)
  | pending, f :: fs =>
    let sp := reSplitP (pending ++ f) [] []
    let rest := runRaw sp.2 fs
    ((sp.1.1 ++ rest.1.1, sp.1.2 ++ rest.1.2), rest.2)

theorem glue_nil (ds t : List Char) : glue [] ds t = t := by
  simp [glue]

theorem glue_nil_ds (segs : List (List Char)) (t : List Char) :
    glue segs [] t = t := by
  cases segs <;> simp [glue]

theorem glue_cons (s : List Char) (segs : List (List Char)) (d : Char)
    (ds t : List Char) :
    glue (s :: segs) (d :: ds) t = s ++ d :: glue segs ds t := by
  simp [glue]

theorem glue_append (A B : List (List Char)) (D E t : List Char)
    (h : A.length = D.length) :
    glue (A ++ B) (D ++ E) t = glue A D (glue B E t) := by
  simp only [glue, List.zipWith_append _ _ _ _ _ h, List.flatten_append,
    List.append_assoc]

theorem glue_append_tail (A : List (List Char)) (D y z : List Char) :
    glue A D (y ++ z) = glue A D y ++ z := by
  simp [glue]

theorem reSplitAux_eq_reSplitP (input : List Char) : ∀ ctx cur,
    (reSplitAux input ctx cur).1
      = (reSplitP input ctx cur).1.1 ++ [(reSplitP input ctx cur).2] ∧
    (reSplitAux input ctx cur).2 = (reSplitP input ctx cur).1.2 := by
  induction input with
  | nil => intro ctx cur; simp [reSplitAux, reSplitP]
  | cons c rest ih =>
    intro ctx cur
    by_cases h : (isWs c && splitHere ctx) = true
    · simp [reSplitAux, reSplitP, h, (ih (c :: ctx) []).1, (ih (c :: ctx) []).2]
    · simp [reSplitAux, reSplitP, h, ih (c :: ctx) (c :: cur)]

theorem reSplitP_length (input : List Char) : ∀ ctx cur,
    (reSplitP input ctx cur).1.1.length = (reSplitP input ctx cur).1.2.length := by
  induction input with
  | nil => intro ctx cur; simp [reSplitP]
  | cons c rest ih =>
    intro ctx cur
    by_cases h : (isWs c && splitHere ctx) = true
    · simp [reSplitP, h, ih (c :: ctx) []]
    · simp [reSplitP, h, ih (c :: ctx) (c :: cur)]

theorem reSplitP_glue (input : List Char) : ∀ ctx cur,
    glue (reSplitP input ctx cur).1.1 (reSplitP input ctx cur).1.2
      ((reSplitP input ctx cur).2) = cur.reverse ++ input := by
  induction input with
  | nil => intro ctx cur; simp [reSplitP, glue]
  | cons c rest ih =>
    intro ctx cur
    by_cases h : (isWs c && splitHere ctx) = true
    · simp [reSplitP, h, glue_cons, ih (c :: ctx) []]
    · simp [reSplitP, h, ih (c :: ctx) (c :: cur)]

theorem reSplitP_delims_ws (input : List Char) : ∀ ctx cur,
    ∀ d ∈ (reSplitP input ctx cur).1.2, isWs d = true := by
  induction input with
  | nil => intro ctx cur; simp [reSplitP]
  | cons c rest ih =>
    intro ctx cur
    by_cases h : (isWs c && splitHere ctx) = true
    · intro d hd
      simp only [reSplitP, h, if_true] at hd
      rcases List.mem_cons.mp hd with h1 | h2
      · exact h1 ▸ (Bool.and_eq_true_iff.mp h).1
      · exact ih (c :: ctx) [] d h2
    · intro d hd
      simp only [reSplitP, h, if_false] at hd
      exact ih (c :: ctx) (c :: cur) d (by simpa [h] using hd)

theorem runRaw_glue (frags : List (List Char)) : ∀ pending,
    glue (runRaw pending frags).1.1 (runRaw pending frags).1.2
      ((runRaw pending frags).2) = pending ++ frags.flatten := by
  induction frags with
  | nil => intro pending; simp [runRaw, glue]
  | cons f fs ih =>
    intro pending
    simp only [runRaw]
    rw [glue_append _ _ _ _ _ (reSplitP_length (pending ++ f) [] []), ih,
      glue_append_tail, reSplitP_glue (pending ++ f) [] []]
    simp [List.flatten_cons, List.append_assoc]

theorem runFrags_eq_runRaw (frags : List (List Char)) : ∀ pending,
    (runFrags pending frags).1 = ((runRaw pending frags).1.1).map pyStrip ∧
    (runFrags pending frags).2 = (runRaw pending frags).2 := by
  induction frags with
  | nil => intro pending; simp [runFrags, runRaw]
  | cons f fs ih =>
    intro pending
    have hsplit := reSplitAux_eq_reSplitP (pending ++ f) [] []
    have hfeed1 : (feed pending f).1
        = ((reSplitP (pending ++ f) [] []).1.1).map pyStrip := by
      simp [feed, reSplit, reSplitD, hsplit.1, List.dropLast_concat]
    have hfeed2 : (feed pending f).2 = (reSplitP (pending ++ f) [] []).2 := by
      simp [feed, reSplit, reSplitD, hsplit.1, List.getLastD_concat]
    constructor
    · simp [runFrags, runRaw, hfeed1, hfeed2, (ih _).1]
    · simp [runFrags, runRaw, hfeed2, (ih _).2]

theorem runRaw_delims_ws (frags : List (List Char)) : ∀ pending,
    ∀ d ∈ (runRaw pending frags).1.2, isWs d = true := by
  induction frags with
  | nil => intro pending; simp [runRaw]
  | cons f fs ih =>
    intro pending d hd
    simp only [runRaw, List.mem_append] at hd
    rcases hd with hd | hd
    · exact reSplitP_delims_ws (pending ++ f) [] [] d hd
    · exact ih _ d hd

/-- The reconstruction property exactly as the claim states it: some
single whitespace character re-inserted after each emitted sentence,
followed by the flushed final buffer, rebuilds the concatenated input. -/
def reconstructsClaim (frags : List (List Char)) : Prop :=
  ∃ ds : List Char,
    ds.length = (runFrags [] frags).1.length ∧
    (∀ d ∈ ds, isWs d = true) ∧
    glue (runFrags [] frags).1 ds (flushBuf (runFrags [] frags).2).flatten
      = frags.flatten

/-- Length of a single glued segment with one delimiter and a tail. -/
theorem glue_single_length (A : List Char) (d : Char) (B : List Char) :
    (glue [A] [d] B).length = A.length + 1 + B.length := by
  simp [glue]
  omega

/-- Claim C1 is false as stated: for the single fragment " Foo. x" the
segmenter emits "Foo." and flushes "x", and no re-insertion of a single
boundary whitespace can rebuild " Foo. x" - the leading space of the
input and the space inside the buffer were dropped by the strips. -/
theorem C1_counterexample : ¬ reconstructsClaim [(" Foo. x").toList] := by
  rintro ⟨ds, hlen, _, heq⟩
  obtain ⟨d, rfl⟩ : ∃ a, ds = [a] := List.length_eq_one.mp (by rw [hlen]; decide)
  have hl := congrArg List.length heq
  rw [(by decide : (runFrags [] [(" Foo. x").toList]).1 = [("Foo.").toList]),
    (by decide : (flushBuf (runFrags [] [(" Foo. x").toList]).2).flatten
      = ("x").toList)] at hl
  rw [glue_single_length] at hl
  revert hl
  decide

/-- Claim C1, amended: re-inserting the consumed boundary whitespace
between the RAW (pre-strip) split segments and appending the raw final
pending buffer reconstructs the concatenated input exactly; the emitted
sentences are exactly those raw segments stripped of leading and
trailing whitespace (and the flush is the stripped buffer), each
consumed delimiter being a single whitespace character.  Exact
reconstruction therefore holds only before the per-sentence strips. -/
theorem C1_reconstruction (frags : List (List Char)) :
    glue (runRaw [] frags).1.1 (runRaw [] frags).1.2 ((runRaw [] frags).2)
      = frags.flatten ∧
    (runFrags [] frags).1 = ((runRaw [] frags).1.1).map pyStrip ∧
    (runFrags [] frags).2 = (runRaw [] frags).2 ∧
    (∀ d ∈ (runRaw [] frags).1.2, isWs d = true) ∧
    segmentAll frags
      = ((runRaw [] frags).1.1).map pyStrip ++ flushBuf ((runRaw [] frags).2) := by
  refine ⟨?_, (runFrags_eq_runRaw frags []).1, (runFrags_eq_runRaw frags []).2,
    runRaw_delims_ws frags [], ?_⟩
  · simpa using runRaw_glue frags []
  · simp [segmentAll, (runFrags_eq_runRaw frags []).1,
      (runFrags_eq_runRaw frags []).2]

/-- Claim C5: feeding "Dr. Smith went home." does not split after "Dr."
(the uppercase-letter-plus-lowercase-letter abbreviation guard) and the
sentence ending at "home." is emitted as its own - and only - sentence;
with a trailing boundary whitespace the same sentence is split off at
the boundary after "home."; and "I saw x. That was odd." does not split
after "x." (the lone-single-letter guard). -/
theorem C5_abbreviation_guards :
    segmentAll [("Dr. Smith went home.").toList]
      = [("Dr. Smith went home.").toList] ∧
    segmentAll [("Dr. Smith went home. ").toList]
      = [("Dr. Smith went home.").toList] ∧
    segmentAll [("I saw x. That was odd.").toList]
      = [("I saw x. That was odd.").toList] := by
  refine ⟨?_, ?_, ?_⟩ <;> decide

/-- First streamed line of the C6 scenario. -/
def lineNice1 : List Char :=
  ("data: \x7b\"choices\":[\x7b\"delta\":\x7b\"content\":\"Nice to \"\x7d\x7d]\x7d").toList

/-- Second streamed line of the C6 scenario. -/
def lineNice2 : List Char :=
  ("data: \x7b\"choices\":[\x7b\"delta\":\x7b\"content\":\"meet you. \"\x7d\x7d]\x7d").toList

/-- The end-of-stream sentinel line. -/
def lineDone : List Char :=
  ("data: [DONE]").toList

/-- Claim C6: the three-line stream of the scenario emits exactly the
one sentence "Nice to meet you." and nothing else. -/
theorem C6_stream_scenario :
    streamLines [lineNice1, lineNice2, lineDone]
      = [("Nice to meet you.").toList] := by
  decide

/-- Witness for the amended C1 theorem at a concrete fragment list. -/
theorem C1_reconstruction_witness :
    glue (runRaw [] [("Hello world. ").toList]).1.1
        (runRaw [] [("Hello world. ").toList]).1.2
        ((runRaw [] [("Hello world. ").toList]).2)
      = [("Hello world. ").toList].flatten ∧
    (runFrags [] [("Hello world. ").toList]).1
      = ((runRaw [] [("Hello world. ").toList]).1.1).map pyStrip :=
  ⟨(C1_reconstruction [("Hello world. ").toList]).1,
   (C1_reconstruction [("Hello world. ").toList]).2.1⟩

/-- The non-streaming response body of the C2 scenario. -/
def bodyHiThere : List Char :=
  ("\x7b\"choices\":[\x7b\"message\":\x7b\"content\":\"Hi there\"\x7d\x7d]\x7d").toList

/-- Claim C2 (code bug): because the body of generate contains `yield
from` (line 77), Python makes generate a generator function, so EVERY
call returns a generator object.  With stream=False that generator
yields nothing; the string "Hi there" extracted by _get_full_response
is only stashed as the StopIteration value of the bare `return` on
line 79 and never reaches a caller iterating the result - contradicting
the docstring ("Returns: The response message from the LLM") and the
annotation Union[Generator, str]. -/
theorem C2_generator_swallows_return :
    (generate [] (("meta-llama/Meta-Llama-3-70B-Instruct").toList)
        (("Be helpful").toList) 512 (0.7 : Float) false
        ⟨[], .resp true bodyHiThere⟩).yielded = [] ∧
    (generate [] (("meta-llama/Meta-Llama-3-70B-Instruct").toList)
        (("Be helpful").toList) 512 (0.7 : Float) false
        ⟨[], .resp true bodyHiThere⟩).stashedReturn
      = some (.ret (.str (("Hi there").toList))) :=
  ⟨rfl, rfl⟩

/-- A streamed line whose payload is not valid JSON. -/
def lineMalformed : List Char :=
  ("data: notjson").toList

/-- A valid ContentDelta line carrying the fragment "Fine. ". -/
def lineFine : List Char :=
  ("data: \x7b\"choices\":[\x7b\"delta\":\x7b\"content\":\"Fine. \"\x7d\x7d]\x7d").toList

/-- Claim C3 is false on the code: a line that fails json.loads aborts
the whole stream (json.loads on line 89 sits outside the inner try, so
its JSONDecodeError reaches the outer handler on line 104, which ends
the generator), and the sentence "Fine." of the following valid frame
is never emitted; the specification-worded pipeline would emit it. -/
theorem C3_counterexample :
    streamLines [lineMalformed, lineFine, lineDone] = [] ∧
    streamSpec [lineMalformed, lineFine, lineDone] = [("Fine.").toList] :=
  ⟨by decide, by decide⟩

/-- Claim C3, amended: a line that is kept by the emptiness/[DONE] guard
but fails JSON parsing terminates the stream at once - nothing more is
emitted, not even the pending-buffer flush. -/
theorem C3_malformed_aborts (line : List Char) (rest : List (List Char))
    (pending : List Char)
    (h1 : (reSubDataAll line).isEmpty = false)
    (h2 : containsDone (reSubDataAll line) = false)
    (h3 : parseJson (reSubDataAll line) = none) :
    streamGo (line :: rest) pending = [] := by
  simp [streamGo, h1, h2, h3]

/-- Witness for the amended C3 theorem at the concrete malformed line. -/
theorem C3_malformed_aborts_witness :
    streamGo [lineMalformed, lineFine] (("Hi").toList) = [] :=
  C3_malformed_aborts lineMalformed [lineFine] (("Hi").toList) rfl rfl rfl

/-- Claim C4 is false on the code: on a transport failure before any
response object exists, the RequestException handler itself reads the
never-assigned local `response` (line 119) and raises
UnboundLocalError - the call propagates an unhandled fault instead of
returning any error string. -/
theorem C4_counterexample :
    ¬ ∃ s : List Char, getFullResponse .connFail = .errStr s := by
  rintro ⟨s, h⟩
  simp [getFullResponse] at h

/-- Claim C4, amended: when a response object exists, a failing HTTP
status or an unparseable body yields the error string "Response
content: " plus the raw text, and a missing expected key (KeyError)
yields "Error parsing response: " plus the raw text; but a transport
failure before any response exists propagates an unhandled fault
(UnboundLocalError in the handler), as does a non-KeyError extraction
failure such as an empty choices array. -/
theorem C4_error_reporting (raw : List Char) :
    getFullResponse (.resp false raw)
      = .errStr ((("Response content: ").toList) ++ raw) ∧
    (parseJson raw = none →
      getFullResponse (.resp true raw)
        = .errStr ((("Response content: ").toList) ++ raw)) ∧
    (∀ j, parseJson raw = some j → extractMsgContent j = .error .keyError →
      getFullResponse (.resp true raw)
        = .errStr ((("Error parsing response: ").toList) ++ raw)) ∧
    getFullResponse .connFail = .fault := by
  refine ⟨rfl, ?_, ?_, rfl⟩
  · intro h
    simp [getFullResponse, h]
  · intro j hj he
    simp [getFullResponse, hj, he]

/-- Witness for the amended C4 theorem: an unparseable 200-status body
and a parseable body with no "choices" key. -/
theorem C4_error_reporting_witness :
    getFullResponse (.resp true (("oops").toList))
      = .errStr ((("Response content: ").toList) ++ (("oops").toList)) ∧
    getFullResponse (.resp true (("\x7b\x7d").toList))
      = .errStr ((("Error parsing response: ").toList) ++ (("\x7b\x7d").toList)) :=
  ⟨(C4_error_reporting (("oops").toList)).2.1 rfl,
   (C4_error_reporting (("\x7b\x7d").toList)).2.2.1 (Json.obj []) rfl rfl⟩

/-- A valid ContentDelta line carrying the fragment "Hello". -/
def lineHello : List Char :=
  ("data: \x7b\"choices\":[\x7b\"delta\":\x7b\"content\":\"Hello\"\x7d\x7d]\x7d").toList

/-- A valid ContentDelta line carrying the fragment " world. ". -/
def lineWorld : List Char :=
  ("data: \x7b\"choices\":[\x7b\"delta\":\x7b\"content\":\" world. \"\x7d\x7d]\x7d").toList

/-- Claim C7 is false on the code: a sentinel line in mid-stream is
merely skipped by the guard on line 88 - the loop keeps consuming later
lines and the pending buffer is flushed only when the lines run out, so
the code emits "Hello world." where ending the stream at the sentinel
(as the claim states) would flush and emit "Hello". -/
theorem C7_counterexample :
    streamLines [lineHello, lineDone, lineWorld] = [("Hello world.").toList] ∧
    streamSpec [lineHello, lineDone, lineWorld] = [("Hello").toList] :=
  ⟨by decide, by decide⟩

/-- Claim C7, amended: a line that is empty after re.sub or contains the
[DONE] sentinel is skipped without processing and without ending the
stream - the output for (line :: rest) equals the output for rest - and
the nonempty pending buffer is flushed only when the line sequence is
exhausted. -/
theorem C7_sentinel_skipped (line : List Char) (rest : List (List Char))
    (pending : List Char)
    (h : (reSubDataAll line).isEmpty = true
      ∨ containsDone (reSubDataAll line) = true) :
    streamGo (line :: rest) pending = streamGo rest pending := by
  rcases h with h | h <;> simp [streamGo, h]

/-- Witness for the amended C7 theorem at the concrete sentinel line. -/
theorem C7_sentinel_skipped_witness :
    streamGo [lineDone, lineHello] (("x").toList)
      = streamGo [lineHello] (("x").toList) :=
  C7_sentinel_skipped lineDone [lineHello] (("x").toList) (Or.inr (by decide))

/-- Claim C8 is false on the code: re.sub("data:", "", value) removes
every occurrence of "data:", not only a leading framing prefix, so on a
line containing the marker text again later the code differs from
prefix-only stripping. -/
theorem C8_counterexample :
    reSubDataAll (("data:abcdata:def").toList)
      ≠ stripLeadingData (("data:abcdata:def").toList) := by
  decide

/-- Claim C8, amended: every occurrence of "data:" in the raw line is
removed in one left-to-right non-overlapping pass: in particular a
leading "data:" prefix is removed, and an occurrence in the middle of
the line (for example inside the payload) is removed as well rather
than preserved. -/
theorem C8_sub_removes_all (s : List Char) :
    reSubDataAll ((("data:").toList) ++ s) = reSubDataAll s ∧
    reSubDataAll (("abcdata:def").toList) = ("abcdef").toList :=
  ⟨rfl, by decide⟩

/-- Witness for the amended C8 theorem at a concrete suffix. -/
theorem C8_sub_removes_all_witness :
    reSubDataAll ((("data:").toList) ++ (("xy").toList))
      = reSubDataAll (("xy").toList) :=
  (C8_sub_removes_all (("xy").toList)).1

/-- Claim C9: every call to generate changes the caller's history only
by inserting the single message {role: "system", content:
system_prompt} at index 0; the tail of the transmitted history is the
original history, every pre-existing message unchanged and in order. -/
theorem C9_history_prepend (history : List Message) (model sp : List Char)
    (mt : Nat) (temp : Float) (stream : Bool) (net : Network) :
    (generate history model sp mt temp stream net).newHistory
      = ⟨("system").toList, sp⟩ :: history ∧
    ((generate history model sp mt temp stream net).newHistory).tail
      = history ∧
    (generate history model sp mt temp stream net).payload.messages
      = ⟨("system").toList, sp⟩ :: history := by
  cases stream <;> simp [generate, List.insertIdx]

/-- Witness for the C9 theorem at a concrete history. -/
theorem C9_history_prepend_witness :
    (generate [⟨("user").toList, ("hi").toList⟩] (("m").toList)
        (("be nice").toList) 512 (0.7 : Float) true ⟨[], .connFail⟩).newHistory
      = [⟨("system").toList, ("be nice").toList⟩,
         ⟨("user").toList, ("hi").toList⟩] :=
  (C9_history_prepend [⟨("user").toList, ("hi").toList⟩] (("m").toList)
    (("be nice").toList) 512 (0.7 : Float) true ⟨[], .connFail⟩).1

/-- Claim C10: the outbound payload's "stream" field is the literal True
(line 73) for every value of the stream argument, and the whole payload
is identical for stream=True and stream=False - the argument selects
only the client-side handling (lines 76-79). -/
theorem C10_request_always_streams (history : List Message)
    (model sp : List Char) (mt : Nat) (temp : Float) (net : Network) :
    (∀ stream : Bool,
      (generate history model sp mt temp stream net).payload.stream = true) ∧
    (generate history model sp mt temp true net).payload
      = (generate history model sp mt temp false net).payload := by
  refine ⟨?_, rfl⟩
  intro stream
  cases stream <;> rfl

/-- Witness for the C10 theorem at concrete arguments. -/
theorem C10_request_always_streams_witness :
    (generate [] (("m").toList) (("p").toList) 1 (0.7 : Float) false
      ⟨[], .connFail⟩).payload.stream = true :=
  (C10_request_always_streams [] (("m").toList) (("p").toList) 1
    (0.7 : Float) ⟨[], .connFail⟩).1 false

end DeepInfra
